import Mathlib

/-!
Shallow embedding of the zero-cloud-llm CLI (src/main.js) together with the
documented model-loading fallback policy (TROUBLESHOOTING.md).  External
collaborators — the `@huggingface/transformers` pipeline loader and generator —
are modelled as oracle functions supplied as parameters; the repository code is
embedded faithfully on top of them.
-/

namespace ZeroCloudLLM

/-- One chat turn, mirroring the `{ role, content }` objects of main.js. -/
structure Msg where
  role : String
  content : String
deriving DecidableEq, Repr

/-- Decoding parameters that main.js passes to the generator:
`{ max_new_tokens: CONFIG.maxTokens, do_sample: false }`.
The `streamer` option only affects incremental display, not the result. -/
structure GenParams where
  max_new_tokens : Nat
  do_sample : Bool
deriving DecidableEq, Repr

/-- The global CONFIG object of main.js (lines 10-15).  The `temperature`
field is declared there but never passed to the generator; it is kept as an
exact rational standing for the literal `0.7`. -/
structure EngineConfig where
  model : String
  dtype : String
  maxTokens : Nat
  temperature : Rat
deriving DecidableEq, Repr

def CONFIG : EngineConfig :=
  { model := "onnx-community/DeepSeek-R1-Distill-Qwen-1.5B-ONNX"
    dtype := "q4f16"
    maxTokens := 512
    temperature := 7 / 10 }

/-- A successfully loaded engine handle, remembering which model and
precision it was bound to. -/
structure Engine where
  model : String
  dtype : String
deriving DecidableEq, Repr

/-- Randomness stream available to the external generator when sampling. -/
abbrev Rand := List Nat

/-- Oracle for the external `pipeline("text-generation", model, {dtype})`
call: given a model identifier and a dtype, the runtime either yields an
engine or fails with a reason. -/
abbrev LoadEnv := String → String → Except String Engine

/-- Oracle for greedy (deterministic) decoding by the external generator:
engine, conversation, max_new_tokens. -/
abbrev GreedyFn := Engine → List Msg → Nat → Except String String

/-- Oracle for sampling-based decoding by the external generator:
engine, conversation, max_new_tokens, randomness. -/
abbrev SampleFn := Engine → List Msg → Nat → Rand → Except String String

/-- Modelled from the spec: the external generator's decoding contract
(spec §4.2, "Deterministic decoding (no random sampling) is the default
policy").  The generator library is not part of this repository; per its
contract, `do_sample: false` selects greedy decoding, which consumes no
randomness, while `do_sample: true` draws from the randomness stream. -/
def libGenerate (greedy : GreedyFn) (sample : SampleFn)
    (e : Engine) (msgs : List Msg) (p : GenParams) (r : Rand) :
    Except String String :=
  if p.do_sample then sample e msgs p.max_new_tokens r
  else greedy e msgs p.max_new_tokens

/-- Observable events of one process run. -/
inductive Event where
  | loadAttempt (model dtype : String)
  | genCall (msgs : List Msg)
  | usageError
  | unknownArgError (arg : String)
deriving DecidableEq, Repr

/-- Result of a whole process run: the ordered event trace and the exit code. -/
structure RunResult where
  events : List Event
  exitCode : Nat
deriving DecidableEq, Repr

/-- initializePipeline (main.js lines 46-75): a single call to
`pipeline("text-generation", CONFIG.model, { dtype: CONFIG.dtype })`;
on failure the error is logged and rethrown.  The returned list records the
dtypes attempted, in order. -/
def initializePipeline (loadEnv : LoadEnv) :
    List String × Except String Engine :=
  ([CONFIG.dtype], loadEnv CONFIG.model CONFIG.dtype)

/-- Modelled from the spec: the documented auto-fallback loader
(TROUBLESHOOTING.md "auto-fallback mechanism": try q4 first, then q8, then
fp32; spec §4.1: stop at the first success, and if all candidates fail
signal LoadFailure carrying the per-candidate reasons in attempt order).
This loop is claimed by the repository's own documentation to live in
src/main.js but is absent from it.  Returns the attempted candidates in
order, and either the engine with the precision that succeeded or the list
of all failure reasons. -/
def specFallbackLoad (loadEnv : LoadEnv) (model : String) :
    List String → List String × Except (List String) (Engine × String)
  | [] => ([], .error [])
  | d :: ds =>
    match loadEnv model d with
    | .ok e => ([d], .ok (e, d))
    | .error msg =>
      let (att, res) := specFallbackLoad loadEnv model ds
      (d :: att,
        match res with
        | .ok x => .ok x
        | .error msgs => .error (msg :: msgs))

/-- generateResponse (main.js lines 80-117): builds the single-turn message
list `[{ role: "user", content: prompt }]` and calls the generator with
`max_new_tokens: CONFIG.maxTokens, do_sample: false` in both the streaming
and the non-streaming branch (the streaming branch only adds a display
streamer).  Errors are logged and rethrown; the event records the call. -/
def generateResponse (greedy : GreedyFn) (sample : SampleFn) (e : Engine)
    (prompt : String) (streaming : Bool) (r : Rand) :
    Event × Except String String :=
  let messages : List Msg := [{ role := "user", content := prompt }]
  if streaming then
    (Event.genCall messages,
      libGenerate greedy sample e messages
        { max_new_tokens := CONFIG.maxTokens, do_sample := false } r)
  else
    (Event.genCall messages,
      libGenerate greedy sample e messages
        { max_new_tokens := CONFIG.maxTokens, do_sample := false } r)

/-- The fixed prompt list of runDemoMode (main.js lines 123-127). -/
def demos : List String :=
  ["Solve the equation: x^2 - 3x + 2 = 0",
   "What is the capital of Indonesia?",
   "Explain quantum computing in simple terms"]

/-- The for-loop body of runDemoMode (main.js lines 133-145), parametric in
the prompt list it iterates: each prompt gets its own fresh
`generateResponse` call (streaming).  There is no try/catch here, so a
generation error stops the iteration and propagates. -/
def runDemoPrompts (greedy : GreedyFn) (sample : SampleFn) (e : Engine)
    (r : Rand) : List String → List Event × Except String Unit
  | [] => ([], .ok ())
  | p :: ps =>
    let (ev, res) := generateResponse greedy sample e p true r
    match res with
    | .error msg => ([ev], .error msg)
    | .ok _ =>
      let (evs, rest) := runDemoPrompts greedy sample e r ps
      (ev :: evs, rest)

/-- runDemoMode (main.js lines 122-146): iterate the built-in demo prompts. -/
def runDemoMode (greedy : GreedyFn) (sample : SampleFn) (e : Engine)
    (r : Rand) : List Event × Except String Unit :=
  runDemoPrompts greedy sample e r demos

/-- Whitespace test used by the model of JavaScript trim, covering the
ASCII whitespace characters that can occur in the inputs considered here. -/
def jsIsWhitespace (c : Char) : Bool :=
  c == ' ' || c == '\t' || c == '\n' || c == '\r'

/-- Lower-casing of one character, as JavaScript toLowerCase acts on the
ASCII range (all inputs considered here are ASCII). -/
def jsCharToLower (c : Char) : Char :=
  if 'A' ≤ c && c ≤ 'Z' then Char.ofNat (c.toNat + 32) else c

/-- Model of JavaScript String.prototype.trim: drop leading and trailing
whitespace. -/
def jsTrim (s : String) : String :=
  ⟨((s.data.dropWhile jsIsWhitespace).reverse.dropWhile jsIsWhitespace).reverse⟩

/-- Model of JavaScript String.prototype.toLowerCase on the ASCII range. -/
def jsToLower (s : String) : String :=
  ⟨s.data.map jsCharToLower⟩

/-- The exit keywords of runInteractiveMode (main.js line 175). -/
def exitKeywords : List String := ["quit", "exit", "q"]

/-- runInteractiveMode's askQuestion loop (main.js lines 166-200), run over
a finite list of pending input lines.  Each line is trimmed; an empty line
re-asks; a (lowercased) exit keyword closes the readline interface and the
process ends with code 0; "clear" clears the screen and re-asks; any other
line is sent to generateResponse inside a try/catch, so the loop continues
whether generation succeeds or fails.  Exhausting the input (stdin EOF)
also ends the process with code 0. -/
def runInteractiveMode (greedy : GreedyFn) (sample : SampleFn) (e : Engine)
    (r : Rand) : List String → List Event × Nat
  | [] => ([], 0)
  | input :: rest =>
    let userInput := jsTrim input
    if userInput = "" then
      runInteractiveMode greedy sample e r rest
    else if exitKeywords.contains (jsToLower userInput) then
      ([], 0)
    else if jsToLower userInput = "clear" then
      runInteractiveMode greedy sample e r rest
    else
      let (ev, _res) := generateResponse greedy sample e userInput true r
      let (evs, code) := runInteractiveMode greedy sample e r rest
      (ev :: evs, code)

/-- runSinglePrompt (main.js lines 206-210): one generateResponse call for
the supplied prompt; no try/catch, so an error propagates to main. -/
def runSinglePrompt (greedy : GreedyFn) (sample : SampleFn) (e : Engine)
    (prompt : String) (r : Rand) : Event × Except String Unit :=
  let (ev, res) := generateResponse greedy sample e prompt true r
  (ev, res.map fun _ => ())

/-- main (main.js lines 215-259): banner, then initializePipeline, then
argument dispatch.  Any error escaping the dispatched mode — or the load
itself — reaches the outer catch and the process exits with code 1.
Note the pipeline is initialized before the arguments are parsed. -/
def mainRun (args : List String) (loadEnv : LoadEnv) (greedy : GreedyFn)
    (sample : SampleFn) (inputs : List String) (r : Rand) : RunResult :=
  let loadEv := Event.loadAttempt CONFIG.model CONFIG.dtype
  match (initializePipeline loadEnv).2 with
  | .error _ => { events := [loadEv], exitCode := 1 }
  | .ok engine =>
    match args with
    | [] =>
      let (evs, code) := runInteractiveMode greedy sample engine r inputs
      { events := loadEv :: evs, exitCode := code }
    | arg0 :: rest =>
      if arg0 = "--demo" then
        let (evs, res) := runDemoMode greedy sample engine r
        match res with
        | .ok _ => { events := loadEv :: evs, exitCode := 0 }
        | .error _ => { events := loadEv :: evs, exitCode := 1 }
      else if arg0 = "--prompt" then
        if rest.isEmpty then
          { events := [loadEv, Event.usageError], exitCode := 1 }
        else
          let prompt := String.intercalate " " rest
          let (ev, res) := runSinglePrompt greedy sample engine prompt r
          match res with
          | .ok _ => { events := [loadEv, ev], exitCode := 0 }
          | .error _ => { events := [loadEv, ev], exitCode := 1 }
      else
        { events := [loadEv, Event.unknownArgError arg0], exitCode := 1 }

/-- The candidate precision levels of the documented fallback policy
(TROUBLESHOOTING.md: first q4 — spelled q4f16 in CONFIG — then q8, then
fp32), in attempt order. -/
def fallbackCandidates : List String := ["q4f16", "q8", "fp32"]

/-- A load environment in which every dtype loads successfully. -/
def envAllOk : LoadEnv := fun model dtype =>
  .ok { model := model, dtype := dtype }

/-- A load environment in which the q4f16 load fails with the float16
error from TROUBLESHOOTING.md while every other dtype succeeds. -/
def envQ4Fails : LoadEnv := fun model dtype =>
  if dtype = "q4f16" then
    .error "Tensor.data must be a typed array (4) for float16 tensors"
  else
    .ok { model := model, dtype := dtype }

/-- A load environment in which every dtype fails to load. -/
def envAllFail : LoadEnv := fun model dtype =>
  .error ("cannot load " ++ model ++ " at dtype " ++ dtype)

/-- A greedy decoder that always succeeds with a fixed reply. -/
def okGreedy : GreedyFn := fun _e _msgs _n => .ok "ok"

/-- A greedy decoder that always fails. -/
def failGreedy : GreedyFn := fun _e _msgs _n => .error "generation failed"

/-- A sampling decoder that always fails, so that any accidental use of
sampling would be observable. -/
def noSample : SampleFn := fun _e _msgs _n _r => .error "sampling disabled"

/-- The engine handle produced by a successful load of the configured
model at the configured dtype. -/
def testEngine : Engine :=
  { model := CONFIG.model, dtype := CONFIG.dtype }

/-- C1 (code_bug): with a load environment where the first documented
candidate precision fails but the second would succeed, initializePipeline
attempts only the hard-coded CONFIG.dtype and propagates its failure,
never attempting the second candidate; the documented fallback loader
would have attempted candidates 1 and 2 in order and returned a handle
bound to the second. -/
theorem initializePipeline_no_fallback :
    (initializePipeline envQ4Fails).1 = ["q4f16"]
    ∧ (initializePipeline envQ4Fails).2
        = Except.error "Tensor.data must be a typed array (4) for float16 tensors"
    ∧ (specFallbackLoad envQ4Fails CONFIG.model fallbackCandidates).1
        = ["q4f16", "q8"]
    ∧ (specFallbackLoad envQ4Fails CONFIG.model fallbackCandidates).2
        = Except.ok ({ model := CONFIG.model, dtype := "q8" }, "q8") :=
  ⟨rfl, rfl, rfl, rfl⟩

/-- C4 (code_bug): when every candidate fails, initializePipeline attempts
only the single hard-coded dtype and rethrows that one raw error — no
LoadFailure carrying one reason per documented candidate exists — and main
exits with code 1; the documented fallback loader would have produced
exactly three reasons, one per candidate, in attempt order. -/
theorem initializePipeline_no_failure_list :
    (initializePipeline envAllFail).1.length = 1
    ∧ (initializePipeline envAllFail).2
        = Except.error ("cannot load " ++ CONFIG.model ++ " at dtype q4f16")
    ∧ (mainRun [] envAllFail okGreedy noSample [] []).exitCode = 1
    ∧ (specFallbackLoad envAllFail CONFIG.model fallbackCandidates).2
        = Except.error
            ["cannot load " ++ CONFIG.model ++ " at dtype q4f16",
             "cannot load " ++ CONFIG.model ++ " at dtype q8",
             "cannot load " ++ CONFIG.model ++ " at dtype fp32"]
    ∧ (specFallbackLoad envAllFail CONFIG.model fallbackCandidates).1.length
        = fallbackCandidates.length :=
  ⟨rfl, rfl, rfl, rfl, rfl⟩

/-- C2 counterexample: invoking main with --prompt and no following text
argument does report a usage error and exit with code 1, but an engine
load attempt occurs first — refuting the part of the claim stating that no
engine load occurs. -/
theorem prompt_missing_text_counterexample :
    mainRun ["--prompt"] envAllOk okGreedy noSample [] []
      = { events := [Event.loadAttempt CONFIG.model CONFIG.dtype, Event.usageError],
          exitCode := 1 }
    ∧ (mainRun ["--prompt"] envAllOk okGreedy noSample [] []).events.head?
        = some (Event.loadAttempt CONFIG.model CONFIG.dtype) :=
  ⟨rfl, rfl⟩

/-- C2 (amended): for --prompt with no following text argument, when the
engine load succeeds, the program reports the usage error and exits with
code 1 and no generation call occurs — but only after the engine load has
been attempted, since main initializes the pipeline before parsing the
arguments. -/
theorem prompt_missing_text_usage (loadEnv : LoadEnv) (greedy : GreedyFn)
    (sample : SampleFn) (inputs : List String) (r : Rand) (e : Engine)
    (h : loadEnv CONFIG.model CONFIG.dtype = Except.ok e) :
    mainRun ["--prompt"] loadEnv greedy sample inputs r
      = { events := [Event.loadAttempt CONFIG.model CONFIG.dtype, Event.usageError],
          exitCode := 1 } := by
  simp [mainRun, initializePipeline, h]

/-- Witness for prompt_missing_text_usage at a concrete load environment. -/
theorem prompt_missing_text_usage_witness :
    envAllOk CONFIG.model CONFIG.dtype = Except.ok testEngine
    ∧ mainRun ["--prompt"] envAllOk okGreedy noSample [] []
        = { events := [Event.loadAttempt CONFIG.model CONFIG.dtype, Event.usageError],
            exitCode := 1 } :=
  ⟨rfl, prompt_missing_text_usage envAllOk okGreedy noSample [] [] testEngine rfl⟩

/-- C3 counterexample: in demo mode a generation error on the first prompt
terminates the process with exit code 1 after a single generation call —
the remaining demo prompts are never attempted — refuting the claim that
every mode continues to its next step after a per-turn generation error. -/
theorem demo_generation_error_fatal :
    mainRun ["--demo"] envAllOk failGreedy noSample [] []
      = { events := [Event.loadAttempt CONFIG.model CONFIG.dtype,
                     Event.genCall
                       [{ role := "user",
                          content := "Solve the equation: x^2 - 3x + 2 = 0" }]],
          exitCode := 1 } := rfl

/-- C3 (amended): in interactive mode a generation error for one turn is
reported and the loop continues exactly as it would on success; in demo
mode a generation error propagates and terminates the process with exit
code 1; a failure during the initial engine load terminates the process
with exit code 1. -/
theorem generation_error_semantics :
    (∀ (greedy : GreedyFn) (sample : SampleFn) (e : Engine) (r : Rand)
       (input : String) (rest : List String),
      jsTrim input ≠ "" →
      exitKeywords.contains (jsToLower (jsTrim input)) = false →
      jsToLower (jsTrim input) ≠ "clear" →
      runInteractiveMode greedy sample e r (input :: rest)
        = (Event.genCall [{ role := "user", content := jsTrim input }]
             :: (runInteractiveMode greedy sample e r rest).1,
           (runInteractiveMode greedy sample e r rest).2))
    ∧ (∀ (loadEnv : LoadEnv) (e : Engine) (greedy : GreedyFn) (sample : SampleFn)
         (inputs : List String) (r : Rand) (msg : String),
      loadEnv CONFIG.model CONFIG.dtype = Except.ok e →
      greedy e [{ role := "user", content := "Solve the equation: x^2 - 3x + 2 = 0" }]
          CONFIG.maxTokens = Except.error msg →
      (mainRun ["--demo"] loadEnv greedy sample inputs r).exitCode = 1)
    ∧ (∀ (loadEnv : LoadEnv) (args : List String) (greedy : GreedyFn)
         (sample : SampleFn) (inputs : List String) (r : Rand) (msg : String),
      loadEnv CONFIG.model CONFIG.dtype = Except.error msg →
      (mainRun args loadEnv greedy sample inputs r).exitCode = 1) := by
  refine ⟨?_, ?_, ?_⟩
  · intro greedy sample e r input rest h1 h2 h3
    simp at h2
    simp [runInteractiveMode, h1, h2, h3, generateResponse]
  · intro loadEnv e greedy sample inputs r msg hload hgen
    simp [mainRun, initializePipeline, hload, runDemoMode, runDemoPrompts, demos,
          generateResponse, libGenerate, hgen]
  · intro loadEnv args greedy sample inputs r msg hload
    simp [mainRun, initializePipeline, hload]

/-- Witness for generation_error_semantics at concrete oracles: a failing
interactive turn still continues to the end of the input, a failing demo
generation exits with code 1, and a failing load exits with code 1. -/
theorem generation_error_semantics_witness :
    runInteractiveMode failGreedy noSample testEngine [] ["hello"]
      = ([Event.genCall [{ role := "user", content := "hello" }]], 0)
    ∧ (mainRun ["--demo"] envAllOk failGreedy noSample [] []).exitCode = 1
    ∧ (mainRun [] envAllFail okGreedy noSample [] []).exitCode = 1 :=
  ⟨(generation_error_semantics.1 failGreedy noSample testEngine [] "hello" []
      (by decide) (by decide) (by decide)).trans rfl,
   generation_error_semantics.2.1 envAllOk testEngine failGreedy noSample [] []
      "generation failed" rfl rfl,
   generation_error_semantics.2.2 envAllFail [] okGreedy noSample [] []
      ("cannot load " ++ CONFIG.model ++ " at dtype q4f16") rfl⟩

/-- C5: in interactive mode with the input sequence ["hello", "quit"], when
the engine load succeeds, exactly one generation call occurs — for "hello"
— and the session terminates with exit code 0 upon "quit" with no further
generation call. -/
theorem interactive_hello_quit (loadEnv : LoadEnv) (greedy : GreedyFn)
    (sample : SampleFn) (r : Rand) (e : Engine)
    (h : loadEnv CONFIG.model CONFIG.dtype = Except.ok e) :
    mainRun [] loadEnv greedy sample ["hello", "quit"] r
      = { events := [Event.loadAttempt CONFIG.model CONFIG.dtype,
                     Event.genCall [{ role := "user", content := "hello" }]],
          exitCode := 0 } := by
  simp [mainRun, initializePipeline, h, runInteractiveMode, generateResponse]
  decide

/-- Witness for interactive_hello_quit at a concrete load environment. -/
theorem interactive_hello_quit_witness :
    envAllOk CONFIG.model CONFIG.dtype = Except.ok testEngine
    ∧ mainRun [] envAllOk okGreedy noSample ["hello", "quit"] []
        = { events := [Event.loadAttempt CONFIG.model CONFIG.dtype,
                       Event.genCall [{ role := "user", content := "hello" }]],
            exitCode := 0 } :=
  ⟨rfl, interactive_hello_quit envAllOk okGreedy noSample [] testEngine rfl⟩

/-- C7: in interactive mode an empty input line produces no generation call
and the session returns to awaiting input: it behaves exactly as it does
on the remaining input sequence. -/
theorem interactive_empty_input (greedy : GreedyFn) (sample : SampleFn)
    (e : Engine) (r : Rand) (rest : List String) :
    runInteractiveMode greedy sample e r ("" :: rest)
      = runInteractiveMode greedy sample e r rest := rfl

/-- C6: the demo-mode iteration over any list of P prompts in which every
generation succeeds performs exactly P generation calls, one per prompt in
list order, each given a fresh single-turn conversation holding only that
prompt as a user turn. -/
theorem demo_fresh_conversations (greedy : GreedyFn) (sample : SampleFn)
    (e : Engine) (r : Rand) (prompts : List String)
    (h : ∀ p ∈ prompts, ∃ out,
      greedy e [{ role := "user", content := p }] CONFIG.maxTokens = Except.ok out) :
    runDemoPrompts greedy sample e r prompts
      = (prompts.map (fun p => Event.genCall [{ role := "user", content := p }]),
         Except.ok ()) := by
  induction prompts with
  | nil => rfl
  | cons p ps ih =>
    obtain ⟨out, hout⟩ := h p (List.mem_cons_self p ps)
    have hrest := ih (fun q hq => h q (List.mem_cons_of_mem p hq))
    simp [runDemoPrompts, generateResponse, libGenerate, hout, hrest]

/-- Witness for demo_fresh_conversations at the built-in demo prompts with
an always-succeeding greedy decoder. -/
theorem demo_fresh_conversations_witness :
    (∀ p ∈ demos, ∃ out,
      okGreedy testEngine [{ role := "user", content := p }] CONFIG.maxTokens
        = Except.ok out)
    ∧ runDemoPrompts okGreedy noSample testEngine [] demos
        = (demos.map (fun p => Event.genCall [{ role := "user", content := p }]),
           Except.ok ()) :=
  ⟨fun _ _ => ⟨"ok", rfl⟩,
   demo_fresh_conversations okGreedy noSample testEngine [] demos
     (fun _ _ => ⟨"ok", rfl⟩)⟩

/-- Generation ignores the randomness stream because generateResponse
always passes do_sample := false. -/
theorem generateResponse_rand_indep (greedy : GreedyFn) (sample : SampleFn)
    (e : Engine) (prompt : String) (streaming : Bool) (r₁ r₂ : Rand) :
    generateResponse greedy sample e prompt streaming r₁
      = generateResponse greedy sample e prompt streaming r₂ := rfl

/-- The interactive loop is independent of the randomness stream. -/
theorem runInteractiveMode_rand_indep (greedy : GreedyFn) (sample : SampleFn)
    (e : Engine) (r₁ r₂ : Rand) (inputs : List String) :
    runInteractiveMode greedy sample e r₁ inputs
      = runInteractiveMode greedy sample e r₂ inputs := by
  induction inputs with
  | nil => rfl
  | cons input rest ih =>
    simp only [runInteractiveMode,
      generateResponse_rand_indep greedy sample e (jsTrim input) true r₁ r₂, ih]

/-- The demo iteration is independent of the randomness stream. -/
theorem runDemoPrompts_rand_indep (greedy : GreedyFn) (sample : SampleFn)
    (e : Engine) (r₁ r₂ : Rand) (prompts : List String) :
    runDemoPrompts greedy sample e r₁ prompts
      = runDemoPrompts greedy sample e r₂ prompts := by
  induction prompts with
  | nil => rfl
  | cons p ps ih =>
    simp only [runDemoPrompts,
      generateResponse_rand_indep greedy sample e p true r₁ r₂, ih]

/-- Single-prompt mode is independent of the randomness stream. -/
theorem runSinglePrompt_rand_indep (greedy : GreedyFn) (sample : SampleFn)
    (e : Engine) (prompt : String) (r₁ r₂ : Rand) :
    runSinglePrompt greedy sample e prompt r₁
      = runSinglePrompt greedy sample e prompt r₂ := rfl

/-- A whole process run is independent of the randomness stream. -/
theorem mainRun_rand_indep (args : List String) (loadEnv : LoadEnv)
    (greedy : GreedyFn) (sample : SampleFn) (inputs : List String)
    (r₁ r₂ : Rand) :
    mainRun args loadEnv greedy sample inputs r₁
      = mainRun args loadEnv greedy sample inputs r₂ := by
  unfold mainRun
  cases (initializePipeline loadEnv).2 with
  | error msg => rfl
  | ok engine =>
    cases args with
    | nil =>
      simp only [runInteractiveMode_rand_indep greedy sample engine r₁ r₂ inputs]
    | cons arg0 rest =>
      simp only [runDemoMode,
        runDemoPrompts_rand_indep greedy sample engine r₁ r₂ demos,
        runSinglePrompt_rand_indep greedy sample engine
          (String.intercalate " " rest) r₁ r₂]

/-- C8: decoding is deterministic by default in every mode — the code
always passes do_sample := false to the generator — so two generation
calls with identical conversation input and identical engine state yield
identical output regardless of the randomness available to the runtime,
and a whole process run in any mode is likewise independent of the
randomness stream. -/
theorem generation_deterministic (greedy : GreedyFn) (sample : SampleFn)
    (e : Engine) (prompt : String) (streaming : Bool) (args : List String)
    (loadEnv : LoadEnv) (inputs : List String) (r₁ r₂ : Rand) :
    generateResponse greedy sample e prompt streaming r₁
      = generateResponse greedy sample e prompt streaming r₂
    ∧ mainRun args loadEnv greedy sample inputs r₁
      = mainRun args loadEnv greedy sample inputs r₂ :=
  ⟨generateResponse_rand_indep greedy sample e prompt streaming r₁ r₂,
   mainRun_rand_indep args loadEnv greedy sample inputs r₁ r₂⟩

/-- C9: interactive keyword matching happens on the trimmed, lowercased
input line: any line whose trimming and lowercasing lands in the exit
keyword list — "quit", "exit" or also "q" — ends the session at once with
exit code 0 and no generation call. -/
theorem interactive_exit_keyword_q (greedy : GreedyFn) (sample : SampleFn)
    (e : Engine) (r : Rand) (input : String) (rest : List String)
    (h : exitKeywords.contains (jsToLower (jsTrim input)) = true) :
    runInteractiveMode greedy sample e r (input :: rest) = ([], 0) := by
  have hne : jsTrim input ≠ "" := by
    intro he
    rw [he] at h
    exact absurd h (by decide)
  simp at h
  simp [runInteractiveMode, hne, h]

/-- Witness for interactive_exit_keyword_q at the input "  Q " — upper
case, surrounded by whitespace — followed by a line that is never reached. -/
theorem interactive_exit_keyword_q_witness :
    exitKeywords.contains (jsToLower (jsTrim "  Q ")) = true
    ∧ runInteractiveMode okGreedy noSample testEngine [] ["  Q ", "hello"]
        = ([], 0) :=
  ⟨by decide,
   interactive_exit_keyword_q okGreedy noSample testEngine [] "  Q " ["hello"]
     (by decide)⟩

/-- C10: in single-prompt mode every non-empty argument sequence following
the --prompt flag is joined with single spaces, and the joined string is
the content of the single user turn of the one generation call made after
a successful load. -/
theorem single_prompt_join (loadEnv : LoadEnv) (greedy : GreedyFn)
    (sample : SampleFn) (inputs : List String) (r : Rand) (e : Engine)
    (rest : List String)
    (hload : loadEnv CONFIG.model CONFIG.dtype = Except.ok e)
    (hne : rest ≠ []) :
    (mainRun ("--prompt" :: rest) loadEnv greedy sample inputs r).events
      = [Event.loadAttempt CONFIG.model CONFIG.dtype,
         Event.genCall
           [{ role := "user", content := String.intercalate " " rest }]] := by
  obtain ⟨a, as, rfl⟩ := List.exists_cons_of_ne_nil hne
  cases hg : greedy e [{ role := "user", content := String.intercalate " " (a :: as) }]
      CONFIG.maxTokens with
  | ok out =>
    simp [mainRun, initializePipeline, hload, runSinglePrompt, generateResponse,
      libGenerate, hg, Except.map]
  | error msg =>
    simp [mainRun, initializePipeline, hload, runSinglePrompt, generateResponse,
      libGenerate, hg, Except.map]

/-- Witness for single_prompt_join at the arguments following
--prompt "What" "is" "AI?". -/
theorem single_prompt_join_witness :
    envAllOk CONFIG.model CONFIG.dtype = Except.ok testEngine
    ∧ (["What", "is", "AI?"] : List String) ≠ []
    ∧ (mainRun ("--prompt" :: ["What", "is", "AI?"]) envAllOk okGreedy noSample
        [] []).events
        = [Event.loadAttempt CONFIG.model CONFIG.dtype,
           Event.genCall
             [{ role := "user",
                content := String.intercalate " " ["What", "is", "AI?"] }]] :=
  ⟨rfl, by decide,
   single_prompt_join envAllOk okGreedy noSample [] [] testEngine
     ["What", "is", "AI?"] rfl (by decide)⟩

end ZeroCloudLLM
